import Mathlib

/-!
Verification of the fable-rag RAG orchestration core.

Shallow embedding of the request handlers in src/handlers (generate.py,
search.py, health.py), the provider cache and factory in src/dependencies.py,
the configuration parsing in src/config.py, and the vector-store wrapper
QdrantManager.search in backend/src/qdrant_manager.py.

External collaborators (the sentence-transformers embedder, the qdrant client,
and the four LLM backend classes) are modelled as an abstract environment of
functions; the qdrant client additionally gets a concrete model taken from the
spec so that threshold/ranking behaviour can be stated.  Machine floats
(similarity scores) are modelled as rationals; this is faithful for every
ordering/filtering property stated here.  Python string formatting of None is
modelled (str(None) = "None"), as is Python truthiness of optional strings
(None and "" are falsy in `a or b` and in `if selected_model and ...`).
-/

/-- Configuration values consumed by the handlers (src/config.py). -/
structure Config where
  collection_name : String
  llm_providers : List String
  llm_default_provider : String
  ollama_models : List String
deriving DecidableEq

/-- Embeds the comma-splitting list parsing of src/config.py lines 18 and 21:
split on commas, strip whitespace, drop empty entries. -/
def parseEnvList (s : String) : List String :=
  ((s.splitOn ",").map (fun p => p.trim)).filter (fun p => p ≠ "")

/-- Python `a or d` for an optional string `a` and string default `d`:
None and the empty string are falsy. -/
def pyOrStr (a : Option String) (d : String) : String :=
  match a with
  | none => d
  | some s => if s = "" then d else s

/-- Python `a or b` for two optional strings: None and "" are falsy. -/
def pyOrOpt (a : Option String) (b : Option String) : Option String :=
  match a with
  | none => b
  | some s => if s = "" then b else some s

/-- Python str() of an optional string; str(None) = "None" (used in the
f-string building the cache key in generate.py line 43). -/
def pyStrOfOpt : Option String → String
  | none => "None"
  | some s => s

/-- Python repr of a string, as interpolated by f-strings for list elements
(names here contain no quote characters). -/
def pyStrRepr (s : String) : String := "\x27" ++ s ++ "\x27"

/-- Python repr of a list of strings, as produced by f"{LLM_PROVIDERS}". -/
def pyListRepr (l : List String) : String :=
  "[" ++ String.intercalate ", " (l.map pyStrRepr) ++ "]"

/-- Payload stored with each point in the vector store (the fields read by the
handlers: title, content, moral, language, word_count). -/
structure FablePayload where
  title : String
  content : String
  moral : String
  language : String
  word_count : Nat
deriving DecidableEq

/-- One hit as returned by the external qdrant client (id, score, payload). -/
structure ScoredPoint where
  id : Nat
  score : Rat
  payload : FablePayload
deriving DecidableEq

/-- One dict in the list returned by QdrantManager.search
(keys id, score, payload; qdrant_manager.py lines 155-162). -/
structure SearchHit where
  id : Nat
  score : Rat
  payload : FablePayload
deriving DecidableEq

/-- Body of POST /generate (src/models/requests.py, GenerateRequest); query
length and limit bounds are enforced by pydantic, outside the handler. -/
structure GenerateRequest where
  query : String
  limit : Nat
  provider : Option String
  ollama_model : Option String
deriving DecidableEq

/-- Body of POST /search (src/models/requests.py, SearchRequest). -/
structure SearchRequest where
  query : String
  limit : Nat
  score_threshold : Option Rat
deriving DecidableEq

/-- Response item FableResult (src/models/responses.py). -/
structure FableResult where
  id : Nat
  title : String
  content : String
  moral : String
  score : Rat
  language : String
  word_count : Nat
deriving DecidableEq

/-- Response model of POST /generate (src/models/responses.py). -/
structure GenerateResponse where
  query : String
  answer : String
  sources : List FableResult
  llm_provider : String
deriving DecidableEq

/-- Response model of POST /search (src/models/responses.py). -/
structure SearchResponse where
  query : String
  results : List FableResult
  total_results : Nat
deriving DecidableEq

/-- Response of GET /models (src/handlers/health.py, list_models). -/
structure ModelsResponse where
  providers : List String
  default_provider : String
  ollama_models : List String
deriving DecidableEq

/-- Outcome of the /generate handler: an HTTPException with a status code and
detail string, or a 200 response. -/
inductive GenOutcome where
  | httpError (status : Nat) (detail : String)
  | ok (resp : GenerateResponse)
deriving DecidableEq

/-- Outcome of the /search handler. -/
inductive SearchOutcome where
  | httpError (status : Nat) (detail : String)
  | ok (resp : SearchResponse)
deriving DecidableEq

/-- Abstract environment of external collaborators, parametric in the type of
constructed provider instances.  ready models "embedding_model and
qdrant_manager are both non-None"; factory models dependencies.get_llm_provider
(raising = Except.error); client models qdrant_client.QdrantClient.search
(raising = Except.error); generate models the backend generate method, whose
faults degrade to the null sentinel None per the llm classes. -/
structure Env (Inst : Type) where
  ready : Bool
  factory : String → Option String → Except String Inst
  encode : String → List Rat
  client : String → List Rat → Nat → Option Rat → Except String (List ScoredPoint)
  generate : Inst → String → Option String

/-- Result of one run of the /generate handler: the outcome, the provider
cache afterwards, and the observable calls made to the provider factory, to
QdrantManager.search (collection, vector, limit, threshold) and to the
backend generate method. -/
structure GenTrace (Inst : Type) where
  result : GenOutcome
  cache : List (String × Inst)
  factoryCalls : List (String × Option String)
  searchCalls : List (String × List Rat × Nat × Option Rat)
  genCalls : List (Inst × String)

/-- Lookup in the provider cache (a Python dict keyed by strings). -/
def lookupKey {Inst : Type} (cache : List (String × Inst)) (k : String) : Option Inst :=
  match cache with
  | [] => none
  | (a, b) :: rest => if a = k then some b else lookupKey rest k

/-- QdrantManager.search (backend/src/qdrant_manager.py lines 128-166): call
the client; on any exception return the empty list; otherwise map each hit to
a dict with keys id, score, payload. -/
def QdrantManager.search
    (client : String → List Rat → Nat → Option Rat → Except String (List ScoredPoint))
    (collection_name : String) (query_vector : List Rat) (limit : Nat)
    (score_threshold : Option Rat) : List SearchHit :=
  match client collection_name query_vector limit score_threshold with
  | .error _ => []
  | .ok results =>
      results.map (fun r => { id := r.id, score := r.score, payload := r.payload })

/-- Modelled from the spec: the external vector index (qdrant_client, not part
of this repository) returns the stored points that meet the score threshold
when one is supplied (score ≥ threshold keeps a point), at most limit of them,
in the store ranking order; ranking by descending score is a hypothesis on the
store where a theorem needs it. -/
def specClient (store : List ScoredPoint) :
    String → List Rat → Nat → Option Rat → Except String (List ScoredPoint) :=
  fun _ _ limit score_threshold =>
    .ok ((match score_threshold with
          | none => store
          | some t => store.filter (fun p => t ≤ p.score)).take limit)

/-- Conversion of one search hit to a FableResult, as written inline in
generate.py lines 88-98 and search.py lines 36-47. -/
def toFableResult (r : SearchHit) : FableResult :=
  { id := r.id, title := r.payload.title, content := r.payload.content,
    moral := r.payload.moral, score := r.score, language := r.payload.language,
    word_count := r.payload.word_count }

/-- Model resolution for ollama (generate.py lines 33-35): selected_model is
None unless the provider is ollama; for ollama it is the request model if
truthy, else the first configured model, else None. -/
def resolveModel (cfg : Config) (req : GenerateRequest) (provider_name : String) :
    Option String :=
  if provider_name = "ollama" then pyOrOpt req.ollama_model cfg.ollama_models.head?
  else none

/-- The model allow-list check (generate.py line 36): fires only when
selected_model is truthy and absent from OLLAMA_MODELS. -/
def modelCheckFails (models : List String) : Option String → Bool
  | none => false
  | some s => decide (s ≠ "") && !(models.contains s)

/-- Cache key (generate.py line 43): f"{provider}:{model}" for ollama, the
provider name alone otherwise. -/
def cacheKeyOf (provider_name : String) (selected_model : Option String) : String :=
  if provider_name = "ollama" then provider_name ++ ":" ++ pyStrOfOpt selected_model
  else provider_name

/-- Provider descriptor in the response (generate.py lines 101-103). -/
def providerInfo (provider_name : String) (selected_model : Option String) : String :=
  if provider_name = "ollama" then "ollama (" ++ pyStrOfOpt selected_model ++ ")"
  else provider_name

/-- One context block (generate.py lines 63-69): the f-string appended for the
i-th result (1-based). -/
def renderFable (i : Nat) (p : FablePayload) : String :=
  "Fable " ++ toString i ++ ": " ++ p.title ++ "\n" ++
  "Content: " ++ p.content ++ "\n" ++
  "Moral: " ++ p.moral

/-- The loop of generate.py lines 62-69: enumerate(results, 1) producing one
rendered block per result. -/
def contextParts : Nat → List SearchHit → List String
  | _, [] => []
  | i, r :: rs => renderFable i r.payload :: contextParts (i + 1) rs

/-- generate.py line 70: "\n\n".join(context_parts). -/
def buildContext (results : List SearchHit) : String :=
  String.intercalate "\n\n" (contextParts 1 results)

/-- The prompt template of generate.py lines 73-79. -/
def buildPrompt (context query : String) : String :=
  "Based on the following fables, answer the user\x27s question.\n\n" ++ context ++
  "\n\nUser\x27s question: " ++ query ++
  "\n\nPlease provide a helpful answer based on the fables above. Reference specific fables when relevant."

/-- The retrieval of generate.py lines 53-59: QdrantManager.search on the
configured collection with the embedded query and the request limit, the
score_threshold argument left at its None default. -/
def retrievedHits {Inst : Type} (env : Env Inst) (cfg : Config)
    (req : GenerateRequest) : List SearchHit :=
  QdrantManager.search env.client cfg.collection_name (env.encode req.query)
    req.limit none

/-- The search call observable for one /generate request:
(collection, vector, limit, threshold) as passed at generate.py lines 55-59. -/
def ragSearchCall {Inst : Type} (env : Env Inst) (cfg : Config)
    (req : GenerateRequest) : String × List Rat × Nat × Option Rat :=
  (cfg.collection_name, env.encode req.query, req.limit, none)

/-- The prompt handed to the backend for one /generate request
(generate.py lines 61-79). -/
def ragPrompt {Inst : Type} (env : Env Inst) (cfg : Config)
    (req : GenerateRequest) : String :=
  buildPrompt (buildContext (retrievedHits env cfg req)) req.query

/-- Steps 1-5 of generate.py (lines 52-110), entered with a resolved provider,
model and backend instance: embed the query, search with no threshold, build
the context and prompt, call generate, and package the response or fail with
500 on the null sentinel. -/
def runRag {Inst : Type} (env : Env Inst) (cfg : Config) (req : GenerateRequest)
    (provider_name : String) (selected_model : Option String) (llm : Inst)
    (cache : List (String × Inst)) (fcalls : List (String × Option String)) :
    GenTrace Inst :=
  let results := retrievedHits env cfg req
  let prompt := ragPrompt env cfg req
  let scall := ragSearchCall env cfg req
  match env.generate llm prompt with
  | none =>
      { result := .httpError 500 "LLM failed to generate response",
        cache := cache, factoryCalls := fcalls, searchCalls := [scall],
        genCalls := [(llm, prompt)] }
  | some answer =>
      { result := .ok { query := req.query, answer := answer,
                        sources := results.map toFableResult,
                        llm_provider := providerInfo provider_name selected_model },
        cache := cache, factoryCalls := fcalls, searchCalls := [scall],
        genCalls := [(llm, prompt)] }

/-- The /generate handler generate_answer (src/handlers/generate.py), as a
function of the environment, configuration, request and provider cache. -/
def generate_answer {Inst : Type} (env : Env Inst) (cfg : Config)
    (req : GenerateRequest) (cache : List (String × Inst)) : GenTrace Inst :=
  if env.ready = true then
    let provider_name := pyOrStr req.provider cfg.llm_default_provider
    if provider_name ∉ cfg.llm_providers then
      { result := .httpError 400 ("Provider " ++ pyStrRepr provider_name ++
          " not available. Available: " ++ pyListRepr cfg.llm_providers),
        cache := cache, factoryCalls := [], searchCalls := [], genCalls := [] }
    else
      let selected_model := resolveModel cfg req provider_name
      if provider_name = "ollama" ∧ modelCheckFails cfg.ollama_models selected_model = true then
        { result := .httpError 400 ("Model " ++ pyStrRepr (pyStrOfOpt selected_model) ++
            " not available. Available: " ++ pyListRepr cfg.ollama_models),
          cache := cache, factoryCalls := [], searchCalls := [], genCalls := [] }
      else
        let cache_key := cacheKeyOf provider_name selected_model
        match lookupKey cache cache_key with
        | some llm => runRag env cfg req provider_name selected_model llm cache []
        | none =>
            match env.factory provider_name selected_model with
            | .error e =>
                { result := .httpError 500 ("Failed to initialize " ++ provider_name ++
                    ": " ++ e),
                  cache := cache, factoryCalls := [(provider_name, selected_model)],
                  searchCalls := [], genCalls := [] }
            | .ok llm =>
                runRag env cfg req provider_name selected_model llm
                  (cache ++ [(cache_key, llm)]) [(provider_name, selected_model)]
  else
    { result := .httpError 503 "System not initialized yet",
      cache := cache, factoryCalls := [], searchCalls := [], genCalls := [] }

/-- The /search handler search_fables (src/handlers/search.py). -/
def search_fables {Inst : Type} (env : Env Inst) (cfg : Config)
    (req : SearchRequest) : SearchOutcome :=
  if env.ready = true then
    let query_vector := env.encode req.query
    let results := QdrantManager.search env.client cfg.collection_name query_vector
        req.limit req.score_threshold
    let fable_results := results.map toFableResult
    .ok { query := req.query, results := fable_results,
          total_results := fable_results.length }
  else
    .httpError 503 "System not initialized yet"

/-- GET /models (src/handlers/health.py lines 21-28). -/
def list_models (cfg : Config) : ModelsResponse :=
  { providers := cfg.llm_providers,
    default_provider := cfg.llm_default_provider,
    ollama_models := if "ollama" ∈ cfg.llm_providers then cfg.ollama_models else [] }

/-- Running a sequence of /generate requests, threading the provider cache and
accumulating the factory calls of every request. -/
def runSeq {Inst : Type} (env : Env Inst) (cfg : Config) :
    List GenerateRequest → List (String × Inst) →
    List (String × Inst) × List (String × Option String)
  | [], cache => (cache, [])
  | r :: rs, cache =>
      let t := generate_answer env cfg r cache
      let rest := runSeq env cfg rs t.cache
      (rest.1, t.factoryCalls ++ rest.2)

/-- Number of factory calls in a call list whose cache key is k. -/
def countKey (k : String) (calls : List (String × Option String)) : Nat :=
  (calls.filter (fun c => cacheKeyOf c.1 c.2 = k)).length

/-! Concrete fixtures used by the witnesses. -/

def cfgW : Config :=
  { collection_name := "fables", llm_providers := ["ollama", "claude_code"],
    llm_default_provider := "ollama", ollama_models := ["llama3.2:latest"] }

def payloadW : FablePayload :=
  { title := "The Fox", content := "A fox story.", moral := "Be wise.",
    language := "en", word_count := 3 }

def storeW : List ScoredPoint :=
  [{ id := 1, score := (9 : Rat) / 10, payload := payloadW },
   { id := 2, score := (1 : Rat) / 2, payload := payloadW }]

def envW : Env Nat :=
  { ready := true, factory := fun _ _ => .ok 7, encode := fun _ => [1, 0],
    client := specClient storeW, generate := fun _ _ => some "An answer." }

def envFailFactory : Env Nat := { envW with factory := fun _ _ => .error "boom" }

def clientDown : String → List Rat → Nat → Option Rat → Except String (List ScoredPoint) :=
  fun _ _ _ _ => .error "connection refused"

def reqW : GenerateRequest :=
  { query := "What about honesty?", limit := 3, provider := none, ollama_model := none }

def reqBadProv : GenerateRequest := { reqW with provider := some "openai" }

def reqBadModel : GenerateRequest := { reqW with ollama_model := some "bad:model" }

def sreqW : SearchRequest := { query := "honesty", limit := 3, score_threshold := none }

def cfgEmptyModels : Config := { cfgW with ollama_models := [] }

def cfgNoOllama : Config := { cfgW with llm_providers := ["claude_code"] }

/-! Branch equations for generate_answer. -/

theorem generate_answer_not_ready {Inst : Type} (env : Env Inst) (cfg : Config)
    (req : GenerateRequest) (cache : List (String × Inst))
    (h : env.ready = false) :
    generate_answer env cfg req cache =
      { result := .httpError 503 "System not initialized yet", cache := cache,
        factoryCalls := [], searchCalls := [], genCalls := [] } := by
  unfold generate_answer
  rw [h]
  rw [if_neg (by simp)]

theorem generate_answer_bad_provider {Inst : Type} (env : Env Inst) (cfg : Config)
    (req : GenerateRequest) (cache : List (String × Inst))
    (hready : env.ready = true)
    (hprov : pyOrStr req.provider cfg.llm_default_provider ∉ cfg.llm_providers) :
    generate_answer env cfg req cache =
      { result := .httpError 400 ("Provider " ++
          pyStrRepr (pyOrStr req.provider cfg.llm_default_provider) ++
          " not available. Available: " ++ pyListRepr cfg.llm_providers),
        cache := cache, factoryCalls := [], searchCalls := [], genCalls := [] } := by
  unfold generate_answer
  rw [hready, if_pos rfl, if_pos hprov]

theorem generate_answer_bad_model {Inst : Type} (env : Env Inst) (cfg : Config)
    (req : GenerateRequest) (cache : List (String × Inst))
    (hready : env.ready = true)
    (hprov : pyOrStr req.provider cfg.llm_default_provider ∈ cfg.llm_providers)
    (hmc : pyOrStr req.provider cfg.llm_default_provider = "ollama" ∧
      modelCheckFails cfg.ollama_models
        (resolveModel cfg req (pyOrStr req.provider cfg.llm_default_provider)) = true) :
    generate_answer env cfg req cache =
      { result := .httpError 400 ("Model " ++
          pyStrRepr (pyStrOfOpt (resolveModel cfg req
            (pyOrStr req.provider cfg.llm_default_provider))) ++
          " not available. Available: " ++ pyListRepr cfg.ollama_models),
        cache := cache, factoryCalls := [], searchCalls := [], genCalls := [] } := by
  unfold generate_answer
  rw [hready, if_pos rfl, if_neg (not_not_intro hprov), if_pos hmc]

theorem generate_answer_cache_hit {Inst : Type} (env : Env Inst) (cfg : Config)
    (req : GenerateRequest) (cache : List (String × Inst)) (llm : Inst)
    (hready : env.ready = true)
    (hprov : pyOrStr req.provider cfg.llm_default_provider ∈ cfg.llm_providers)
    (hmc : ¬(pyOrStr req.provider cfg.llm_default_provider = "ollama" ∧
      modelCheckFails cfg.ollama_models
        (resolveModel cfg req (pyOrStr req.provider cfg.llm_default_provider)) = true))
    (hl : lookupKey cache (cacheKeyOf (pyOrStr req.provider cfg.llm_default_provider)
      (resolveModel cfg req (pyOrStr req.provider cfg.llm_default_provider))) = some llm) :
    generate_answer env cfg req cache =
      runRag env cfg req (pyOrStr req.provider cfg.llm_default_provider)
        (resolveModel cfg req (pyOrStr req.provider cfg.llm_default_provider))
        llm cache [] := by
  simp only [generate_answer]
  rw [hready]
  rw [if_pos rfl, if_neg (not_not_intro hprov), if_neg hmc, hl]

theorem generate_answer_factory_error {Inst : Type} (env : Env Inst) (cfg : Config)
    (req : GenerateRequest) (cache : List (String × Inst)) (e : String)
    (hready : env.ready = true)
    (hprov : pyOrStr req.provider cfg.llm_default_provider ∈ cfg.llm_providers)
    (hmc : ¬(pyOrStr req.provider cfg.llm_default_provider = "ollama" ∧
      modelCheckFails cfg.ollama_models
        (resolveModel cfg req (pyOrStr req.provider cfg.llm_default_provider)) = true))
    (hl : lookupKey cache (cacheKeyOf (pyOrStr req.provider cfg.llm_default_provider)
      (resolveModel cfg req (pyOrStr req.provider cfg.llm_default_provider))) = none)
    (hf : env.factory (pyOrStr req.provider cfg.llm_default_provider)
      (resolveModel cfg req (pyOrStr req.provider cfg.llm_default_provider)) = .error e) :
    generate_answer env cfg req cache =
      { result := .httpError 500 ("Failed to initialize " ++
          pyOrStr req.provider cfg.llm_default_provider ++ ": " ++ e),
        cache := cache,
        factoryCalls := [(pyOrStr req.provider cfg.llm_default_provider,
          resolveModel cfg req (pyOrStr req.provider cfg.llm_default_provider))],
        searchCalls := [], genCalls := [] } := by
  simp only [generate_answer]
  rw [hready]
  rw [if_pos rfl, if_neg (not_not_intro hprov), if_neg hmc, hl, hf]

theorem generate_answer_factory_ok {Inst : Type} (env : Env Inst) (cfg : Config)
    (req : GenerateRequest) (cache : List (String × Inst)) (llm : Inst)
    (hready : env.ready = true)
    (hprov : pyOrStr req.provider cfg.llm_default_provider ∈ cfg.llm_providers)
    (hmc : ¬(pyOrStr req.provider cfg.llm_default_provider = "ollama" ∧
      modelCheckFails cfg.ollama_models
        (resolveModel cfg req (pyOrStr req.provider cfg.llm_default_provider)) = true))
    (hl : lookupKey cache (cacheKeyOf (pyOrStr req.provider cfg.llm_default_provider)
      (resolveModel cfg req (pyOrStr req.provider cfg.llm_default_provider))) = none)
    (hf : env.factory (pyOrStr req.provider cfg.llm_default_provider)
      (resolveModel cfg req (pyOrStr req.provider cfg.llm_default_provider)) = .ok llm) :
    generate_answer env cfg req cache =
      runRag env cfg req (pyOrStr req.provider cfg.llm_default_provider)
        (resolveModel cfg req (pyOrStr req.provider cfg.llm_default_provider))
        llm (cache ++ [(cacheKeyOf (pyOrStr req.provider cfg.llm_default_provider)
          (resolveModel cfg req (pyOrStr req.provider cfg.llm_default_provider)), llm)])
        [(pyOrStr req.provider cfg.llm_default_provider,
          resolveModel cfg req (pyOrStr req.provider cfg.llm_default_provider))] := by
  simp only [generate_answer]
  rw [hready]
  rw [if_pos rfl, if_neg (not_not_intro hprov), if_neg hmc, hl, hf]

/-! Projections of runRag. -/

theorem runRag_cache {Inst : Type} (env : Env Inst) (cfg : Config)
    (req : GenerateRequest) (p : String) (m : Option String) (llm : Inst)
    (cache : List (String × Inst)) (fcalls : List (String × Option String)) :
    (runRag env cfg req p m llm cache fcalls).cache = cache := by
  simp only [runRag]
  cases env.generate llm (ragPrompt env cfg req) <;> rfl

theorem runRag_factoryCalls {Inst : Type} (env : Env Inst) (cfg : Config)
    (req : GenerateRequest) (p : String) (m : Option String) (llm : Inst)
    (cache : List (String × Inst)) (fcalls : List (String × Option String)) :
    (runRag env cfg req p m llm cache fcalls).factoryCalls = fcalls := by
  simp only [runRag]
  cases env.generate llm (ragPrompt env cfg req) <;> rfl

theorem runRag_searchCalls {Inst : Type} (env : Env Inst) (cfg : Config)
    (req : GenerateRequest) (p : String) (m : Option String) (llm : Inst)
    (cache : List (String × Inst)) (fcalls : List (String × Option String)) :
    (runRag env cfg req p m llm cache fcalls).searchCalls = [ragSearchCall env cfg req] := by
  simp only [runRag]
  cases env.generate llm (ragPrompt env cfg req) <;> rfl

theorem runRag_genCalls {Inst : Type} (env : Env Inst) (cfg : Config)
    (req : GenerateRequest) (p : String) (m : Option String) (llm : Inst)
    (cache : List (String × Inst)) (fcalls : List (String × Option String)) :
    (runRag env cfg req p m llm cache fcalls).genCalls = [(llm, ragPrompt env cfg req)] := by
  simp only [runRag]
  cases env.generate llm (ragPrompt env cfg req) <;> rfl

theorem runRag_result_none {Inst : Type} (env : Env Inst) (cfg : Config)
    (req : GenerateRequest) (p : String) (m : Option String) (llm : Inst)
    (cache : List (String × Inst)) (fcalls : List (String × Option String))
    (h : env.generate llm (ragPrompt env cfg req) = none) :
    (runRag env cfg req p m llm cache fcalls).result =
      .httpError 500 "LLM failed to generate response" := by
  simp only [runRag]
  rw [h]

theorem runRag_result_some {Inst : Type} (env : Env Inst) (cfg : Config)
    (req : GenerateRequest) (p : String) (m : Option String) (llm : Inst)
    (cache : List (String × Inst)) (fcalls : List (String × Option String))
    (t : String) (h : env.generate llm (ragPrompt env cfg req) = some t) :
    (runRag env cfg req p m llm cache fcalls).result =
      .ok { query := req.query, answer := t,
            sources := (retrievedHits env cfg req).map toFableResult,
            llm_provider := providerInfo p m } := by
  simp only [runRag]
  rw [h]

/-! List-level helper lemmas. -/

theorem lookupKey_append {Inst : Type} (cache : List (String × Inst)) (a k : String) (b : Inst) :
    lookupKey (cache ++ [(a, b)]) k =
      match lookupKey cache k with
      | some v => some v
      | none => if a = k then some b else none := by
  induction cache with
  | nil => rfl
  | cons hd tl ih =>
      obtain ⟨x, y⟩ := hd
      by_cases hx : x = k
      · simp [lookupKey, hx]
      · simp only [List.cons_append, lookupKey, if_neg hx]
        exact ih

theorem contextParts_length (l : List SearchHit) : ∀ i, (contextParts i l).length = l.length := by
  induction l with
  | nil => intro i; rfl
  | cons hd tl ih => intro i; simp [contextParts, ih]

theorem contextParts_getElem (l : List SearchHit) : ∀ (i j : Nat),
    (contextParts i l)[j]? = (l[j]?).map (fun r => renderFable (i + j) r.payload) := by
  induction l with
  | nil => intro i j; simp [contextParts]
  | cons hd tl ih =>
      intro i j
      cases j with
      | zero => simp [contextParts]
      | succ j =>
          have h1 : i + (j + 1) = (i + 1) + j := by omega
          simp [contextParts, ih (i + 1) j, h1]

/-- C1: a /generate request whose resolved provider name (the explicit request
field, else the configured default) is outside the configured allow-list fails
with a 400 error; the provider cache is left unchanged, the outcome does not
depend on the cache contents at all, and the provider factory, the vector
search and the backend are never invoked. -/
theorem generate_unknown_provider_rejected {Inst : Type} (env : Env Inst)
    (cfg : Config) (req : GenerateRequest) (cache : List (String × Inst))
    (hready : env.ready = true)
    (hprov : pyOrStr req.provider cfg.llm_default_provider ∉ cfg.llm_providers) :
    (∃ d, (generate_answer env cfg req cache).result = .httpError 400 d) ∧
    (generate_answer env cfg req cache).cache = cache ∧
    (generate_answer env cfg req cache).factoryCalls = [] ∧
    (generate_answer env cfg req cache).searchCalls = [] ∧
    (generate_answer env cfg req cache).genCalls = [] ∧
    (∀ cache2, (generate_answer env cfg req cache2).result =
      (generate_answer env cfg req cache).result) := by
  rw [generate_answer_bad_provider env cfg req cache hready hprov]
  refine ⟨⟨_, rfl⟩, rfl, rfl, rfl, rfl, ?_⟩
  intro cache2
  rw [generate_answer_bad_provider env cfg req cache2 hready hprov]

theorem generate_unknown_provider_rejected_witness :
    envW.ready = true ∧
    pyOrStr reqBadProv.provider cfgW.llm_default_provider ∉ cfgW.llm_providers ∧
    (∃ d, (generate_answer envW cfgW reqBadProv []).result = .httpError 400 d) ∧
    (generate_answer envW cfgW reqBadProv []).factoryCalls = [] :=
  ⟨rfl, by decide,
   (generate_unknown_provider_rejected envW cfgW reqBadProv [] rfl (by decide)).1,
   (generate_unknown_provider_rejected envW cfgW reqBadProv [] rfl (by decide)).2.2.1⟩

/-- C5: QdrantManager.search returns the empty list whenever the underlying
client call raises, and on success returns one dict per backend hit, in the
backend order, exposing id, score and payload. -/
theorem qdrant_search_soft_fail
    (client : String → List Rat → Nat → Option Rat → Except String (List ScoredPoint))
    (collection_name : String) (query_vector : List Rat) (limit : Nat)
    (score_threshold : Option Rat) :
    (∀ e, client collection_name query_vector limit score_threshold = .error e →
      QdrantManager.search client collection_name query_vector limit score_threshold = []) ∧
    (∀ hits, client collection_name query_vector limit score_threshold = .ok hits →
      ∀ i : Nat,
        (QdrantManager.search client collection_name query_vector limit score_threshold)[i]? =
          (hits[i]?).map (fun r =>
            ({ id := r.id, score := r.score, payload := r.payload } : SearchHit))) := by
  constructor
  · intro e he
    unfold QdrantManager.search
    rw [he]
  · intro hits hh i
    unfold QdrantManager.search
    rw [hh]
    simp

theorem qdrant_search_soft_fail_witness :
    QdrantManager.search clientDown "fables" [1] 5 none = [] ∧
    (QdrantManager.search (specClient storeW) "fables" [1] 2 none)[0]? =
      some { id := 1, score := (9 : Rat) / 10, payload := payloadW } :=
  ⟨(qdrant_search_soft_fail clientDown "fables" [1] 5 none).1 "connection refused" rfl,
   by
     have h := (qdrant_search_soft_fail (specClient storeW) "fables" [1] 2 none).2
       (storeW.take 2) rfl 0
     rw [h]
     rfl⟩

/-- C10: GET /models always returns the configured provider list and default
provider; ollama_models is the empty list whenever "ollama" is not among the
enabled providers, regardless of the configured model names, and is exactly
the configured model list when "ollama" is enabled. -/
theorem models_endpoint_spec (cfg : Config) :
    (list_models cfg).providers = cfg.llm_providers ∧
    (list_models cfg).default_provider = cfg.llm_default_provider ∧
    ("ollama" ∉ cfg.llm_providers → (list_models cfg).ollama_models = []) ∧
    ("ollama" ∈ cfg.llm_providers → (list_models cfg).ollama_models = cfg.ollama_models) := by
  refine ⟨rfl, rfl, ?_, ?_⟩ <;> intro h <;> simp [list_models, h]

theorem models_endpoint_spec_witness :
    (list_models cfgNoOllama).ollama_models = [] ∧
    (list_models cfgW).ollama_models = cfgW.ollama_models :=
  ⟨(models_endpoint_spec cfgNoOllama).2.2.1 (by decide),
   (models_endpoint_spec cfgW).2.2.2 (by decide)⟩

/-- Where resolveModel can get a model name from: the configured list, or the
explicit (truthy) request field. -/
theorem resolveModel_mem_or_explicit (cfg : Config) (req : GenerateRequest) (m : String)
    (hm : resolveModel cfg req "ollama" = some m) :
    m ∈ cfg.ollama_models ∨ (req.ollama_model = some m ∧ m ≠ "") := by
  unfold resolveModel at hm
  rw [if_pos rfl] at hm
  cases hreq : req.ollama_model with
  | none =>
      rw [hreq] at hm
      simp only [pyOrOpt] at hm
      exact Or.inl (List.mem_of_mem_head? (by rw [hm]; rfl))
  | some s =>
      rw [hreq] at hm
      simp only [pyOrOpt] at hm
      by_cases hs : s = ""
      · rw [if_pos hs] at hm
        exact Or.inl (List.mem_of_mem_head? (by rw [hm]; rfl))
      · rw [if_neg hs] at hm
        injection hm with h2
        subst h2
        exact Or.inr ⟨rfl, hs⟩

/-- C2: a /generate request resolving to the ollama provider whose resolved
model (explicit request field, else configured default) is absent from the
configured model allow-list fails with a 400 error before any backend is
constructed or invoked: the cache is unchanged and no factory, search or
generate call happens. -/
theorem generate_bad_model_rejected {Inst : Type} (env : Env Inst) (cfg : Config)
    (req : GenerateRequest) (cache : List (String × Inst)) (m : String)
    (hready : env.ready = true)
    (hprov : pyOrStr req.provider cfg.llm_default_provider = "ollama")
    (hmem : "ollama" ∈ cfg.llm_providers)
    (hm : resolveModel cfg req "ollama" = some m)
    (hnotin : m ∉ cfg.ollama_models) :
    (∃ d, (generate_answer env cfg req cache).result = .httpError 400 d) ∧
    (generate_answer env cfg req cache).cache = cache ∧
    (generate_answer env cfg req cache).factoryCalls = [] ∧
    (generate_answer env cfg req cache).searchCalls = [] ∧
    (generate_answer env cfg req cache).genCalls = [] := by
  have hm0 : m ≠ "" := by
    rcases resolveModel_mem_or_explicit cfg req m hm with h | h
    · exact absurd h hnotin
    · exact h.2
  have hcheck : modelCheckFails cfg.ollama_models
      (resolveModel cfg req (pyOrStr req.provider cfg.llm_default_provider)) = true := by
    rw [hprov, hm]
    simp [modelCheckFails, hm0, hnotin]
  rw [generate_answer_bad_model env cfg req cache hready (by rw [hprov]; exact hmem)
    ⟨hprov, hcheck⟩]
  exact ⟨⟨_, rfl⟩, rfl, rfl, rfl, rfl⟩

theorem generate_bad_model_rejected_witness :
    resolveModel cfgW reqBadModel "ollama" = some "bad:model" ∧
    "bad:model" ∉ cfgW.ollama_models ∧
    (∃ d, (generate_answer envW cfgW reqBadModel []).result = .httpError 400 d) ∧
    (generate_answer envW cfgW reqBadModel []).factoryCalls = [] :=
  ⟨rfl, by decide,
   (generate_bad_model_rejected envW cfgW reqBadModel [] "bad:model" rfl rfl
     (by decide) rfl (by decide)).1,
   (generate_bad_model_rejected envW cfgW reqBadModel [] "bad:model" rfl rfl
     (by decide) rfl (by decide)).2.2.1⟩

/-- Master case analysis: a /generate run either stops before retrieval (no
search and no generate call) or reaches the RAG stage, where exactly one
search call with no threshold and one generate call with the assembled prompt
happen, and the outcome is determined by the backend result. -/
theorem generate_trace_inv {Inst : Type} (env : Env Inst) (cfg : Config)
    (req : GenerateRequest) (cache : List (String × Inst)) :
    ((generate_answer env cfg req cache).searchCalls = [] ∧
     (generate_answer env cfg req cache).genCalls = []) ∨
    (∃ llm, (generate_answer env cfg req cache).searchCalls = [ragSearchCall env cfg req] ∧
      (generate_answer env cfg req cache).genCalls = [(llm, ragPrompt env cfg req)] ∧
      (env.generate llm (ragPrompt env cfg req) = none →
        (generate_answer env cfg req cache).result =
          .httpError 500 "LLM failed to generate response") ∧
      (∀ t, env.generate llm (ragPrompt env cfg req) = some t →
        (generate_answer env cfg req cache).result =
          .ok { query := req.query, answer := t,
                sources := (retrievedHits env cfg req).map toFableResult,
                llm_provider := providerInfo (pyOrStr req.provider cfg.llm_default_provider)
                  (resolveModel cfg req (pyOrStr req.provider cfg.llm_default_provider)) })) := by
  by_cases hready : env.ready = true
  case neg =>
    left
    rw [generate_answer_not_ready env cfg req cache (by revert hready; cases env.ready <;> simp)]
    exact ⟨rfl, rfl⟩
  by_cases hprov : pyOrStr req.provider cfg.llm_default_provider ∈ cfg.llm_providers
  case neg =>
    left
    rw [generate_answer_bad_provider env cfg req cache hready hprov]
    exact ⟨rfl, rfl⟩
  by_cases hmc : (pyOrStr req.provider cfg.llm_default_provider = "ollama" ∧
      modelCheckFails cfg.ollama_models
        (resolveModel cfg req (pyOrStr req.provider cfg.llm_default_provider)) = true)
  case pos =>
    left
    rw [generate_answer_bad_model env cfg req cache hready hprov hmc]
    exact ⟨rfl, rfl⟩
  cases hl : lookupKey cache (cacheKeyOf (pyOrStr req.provider cfg.llm_default_provider)
      (resolveModel cfg req (pyOrStr req.provider cfg.llm_default_provider))) with
  | some llm =>
      right
      refine ⟨llm, ?_, ?_, ?_, ?_⟩
      · rw [generate_answer_cache_hit env cfg req cache llm hready hprov hmc hl,
          runRag_searchCalls]
      · rw [generate_answer_cache_hit env cfg req cache llm hready hprov hmc hl,
          runRag_genCalls]
      · intro hg
        rw [generate_answer_cache_hit env cfg req cache llm hready hprov hmc hl]
        exact runRag_result_none env cfg req _ _ llm cache [] hg
      · intro t hg
        rw [generate_answer_cache_hit env cfg req cache llm hready hprov hmc hl]
        exact runRag_result_some env cfg req _ _ llm cache [] t hg
  | none =>
      cases hf : env.factory (pyOrStr req.provider cfg.llm_default_provider)
          (resolveModel cfg req (pyOrStr req.provider cfg.llm_default_provider)) with
      | error e =>
          left
          rw [generate_answer_factory_error env cfg req cache e hready hprov hmc hl hf]
          exact ⟨rfl, rfl⟩
      | ok llm =>
          right
          refine ⟨llm, ?_, ?_, ?_, ?_⟩
          · rw [generate_answer_factory_ok env cfg req cache llm hready hprov hmc hl hf,
              runRag_searchCalls]
          · rw [generate_answer_factory_ok env cfg req cache llm hready hprov hmc hl hf,
              runRag_genCalls]
          · intro hg
            rw [generate_answer_factory_ok env cfg req cache llm hready hprov hmc hl hf]
            exact runRag_result_none env cfg req _ _ llm _ _ hg
          · intro t hg
            rw [generate_answer_factory_ok env cfg req cache llm hready hprov hmc hl hf]
            exact runRag_result_some env cfg req _ _ llm _ _ t hg

/-- C3: once a /generate request reaches the generation step (a backend
generate call is made with some prompt), a null sentinel from the backend
makes the handler fail with the 500 GenerationFailed error, and any non-null
text makes it return a success response whose answer is exactly that text. -/
theorem generate_null_sentinel {Inst : Type} (env : Env Inst) (cfg : Config)
    (req : GenerateRequest) (cache : List (String × Inst)) (llm : Inst) (p : String)
    (h : (generate_answer env cfg req cache).genCalls = [(llm, p)]) :
    (env.generate llm p = none →
      (generate_answer env cfg req cache).result =
        .httpError 500 "LLM failed to generate response") ∧
    (∀ t, env.generate llm p = some t →
      ∃ resp, (generate_answer env cfg req cache).result = .ok resp ∧ resp.answer = t) := by
  rcases generate_trace_inv env cfg req cache with ⟨_, hg⟩ | ⟨llm0, _, hg, hn, ho⟩
  · rw [hg] at h; cases h
  · rw [hg] at h
    simp only [List.cons.injEq, Prod.mk.injEq, and_true] at h
    obtain ⟨hllm, hp⟩ := h
    subst hllm
    subst hp
    exact ⟨hn, fun t hg2 => ⟨_, ho t hg2, rfl⟩⟩

theorem generate_null_sentinel_witness :
    (generate_answer envW cfgW reqW []).genCalls = [(7, ragPrompt envW cfgW reqW)] ∧
    (∃ resp, (generate_answer envW cfgW reqW []).result = .ok resp ∧
      resp.answer = "An answer.") :=
  ⟨rfl,
   (generate_null_sentinel envW cfgW reqW [] 7 (ragPrompt envW cfgW reqW) rfl).2
     "An answer." rfl⟩

/-- C6: every /generate request that performs retrieval calls the vector
search with the embedded query and the request limit and with the threshold
argument left at None; consequently, with the spec model of the external
index, the retrieved hits are the first limit stored points with no
score-based filtering. -/
theorem generate_search_no_threshold {Inst : Type} (env : Env Inst) (cfg : Config)
    (req : GenerateRequest) (cache : List (String × Inst))
    (sc : String × List Rat × Nat × Option Rat)
    (h : (generate_answer env cfg req cache).searchCalls = [sc]) :
    sc = (cfg.collection_name, env.encode req.query, req.limit, (none : Option Rat)) ∧
    ∀ store, env.client = specClient store →
      retrievedHits env cfg req = (store.take req.limit).map (fun r =>
        ({ id := r.id, score := r.score, payload := r.payload } : SearchHit)) := by
  constructor
  · rcases generate_trace_inv env cfg req cache with ⟨hs, _⟩ | ⟨llm0, hs, _, _, _⟩
    · rw [hs] at h; cases h
    · rw [hs] at h
      injection h with h1 _
      rw [← h1]
      rfl
  · intro store hstore
    unfold retrievedHits QdrantManager.search
    rw [hstore]
    rfl

theorem generate_search_no_threshold_witness :
    (generate_answer envW cfgW reqW []).searchCalls =
      [("fables", [1, 0], 3, (none : Option Rat))] ∧
    retrievedHits envW cfgW reqW = (storeW.take 3).map (fun r =>
      ({ id := r.id, score := r.score, payload := r.payload } : SearchHit)) :=
  ⟨rfl,
   (generate_search_no_threshold envW cfgW reqW []
     ("fables", [1, 0], 3, (none : Option Rat)) rfl).2 storeW rfl⟩

/-- C8: the prompt handed to the backend embeds the context assembled from the
retrieved passages: one deterministic rendering per passage with 1-based
index, title, content and moral in that fixed order, joined with blank lines
and preserving the ranked retrieval order. -/
theorem generate_context_assembly {Inst : Type} (env : Env Inst) (cfg : Config)
    (req : GenerateRequest) (cache : List (String × Inst)) (llm : Inst) (p : String)
    (h : (generate_answer env cfg req cache).genCalls = [(llm, p)]) :
    p = buildPrompt (String.intercalate "\n\n"
          (contextParts 1 (retrievedHits env cfg req))) req.query ∧
    (contextParts 1 (retrievedHits env cfg req)).length =
      (retrievedHits env cfg req).length ∧
    ∀ j : Nat, (contextParts 1 (retrievedHits env cfg req))[j]? =
      ((retrievedHits env cfg req)[j]?).map (fun r => renderFable (1 + j) r.payload) := by
  refine ⟨?_, contextParts_length _ 1, fun j => contextParts_getElem _ 1 j⟩
  rcases generate_trace_inv env cfg req cache with ⟨_, hg⟩ | ⟨llm0, _, hg, _, _⟩
  · rw [hg] at h; cases h
  · rw [hg] at h
    simp only [List.cons.injEq, Prod.mk.injEq, and_true] at h
    exact h.2.symm

theorem generate_context_assembly_witness :
    ragPrompt envW cfgW reqW =
      buildPrompt (String.intercalate "\n\n"
        (contextParts 1 (retrievedHits envW cfgW reqW))) reqW.query ∧
    (contextParts 1 (retrievedHits envW cfgW reqW)).length =
      (retrievedHits envW cfgW reqW).length :=
  ⟨(generate_context_assembly envW cfgW reqW [] 7 (ragPrompt envW cfgW reqW) rfl).1,
   (generate_context_assembly envW cfgW reqW [] 7 (ragPrompt envW cfgW reqW) rfl).2.1⟩

/-- C9: for an ollama /generate request with no model in the request and an
empty configured model allow-list, the model resolves to None, the allow-list
rejection is skipped (no 400 is possible), and the handler proceeds to
construct the backend with no model name, caching the constructed instance
under the key "ollama:None". -/
theorem generate_none_model_cache_key {Inst : Type} (env : Env Inst) (cfg : Config)
    (req : GenerateRequest) (cache : List (String × Inst))
    (hready : env.ready = true)
    (hprov : pyOrStr req.provider cfg.llm_default_provider = "ollama")
    (hmem : "ollama" ∈ cfg.llm_providers)
    (hnomodel : req.ollama_model = none)
    (hempty : cfg.ollama_models = [])
    (hmiss : lookupKey cache "ollama:None" = none) :
    resolveModel cfg req "ollama" = none ∧
    (∀ d, (generate_answer env cfg req cache).result ≠ .httpError 400 d) ∧
    (generate_answer env cfg req cache).factoryCalls = [("ollama", (none : Option String))] ∧
    (∀ llm, env.factory "ollama" none = .ok llm →
      lookupKey (generate_answer env cfg req cache).cache "ollama:None" = some llm) := by
  have hres : resolveModel cfg req "ollama" = none := by
    simp [resolveModel, pyOrOpt, hnomodel, hempty]
  have hres2 : resolveModel cfg req (pyOrStr req.provider cfg.llm_default_provider) = none := by
    rw [hprov]
    exact hres
  have hmem2 : pyOrStr req.provider cfg.llm_default_provider ∈ cfg.llm_providers := by
    rw [hprov]
    exact hmem
  have hmc : ¬(pyOrStr req.provider cfg.llm_default_provider = "ollama" ∧
      modelCheckFails cfg.ollama_models
        (resolveModel cfg req (pyOrStr req.provider cfg.llm_default_provider)) = true) := by
    intro hc
    rw [hres2] at hc
    exact absurd hc.2 (by simp [modelCheckFails])
  have hkey : cacheKeyOf (pyOrStr req.provider cfg.llm_default_provider)
      (resolveModel cfg req (pyOrStr req.provider cfg.llm_default_provider)) = "ollama:None" := by
    rw [hprov, hres]
    rfl
  have hmiss2 : lookupKey cache (cacheKeyOf (pyOrStr req.provider cfg.llm_default_provider)
      (resolveModel cfg req (pyOrStr req.provider cfg.llm_default_provider))) = none := by
    rw [hkey]
    exact hmiss
  refine ⟨hres, ?_, ?_, ?_⟩
  · intro d
    cases hf : env.factory (pyOrStr req.provider cfg.llm_default_provider)
        (resolveModel cfg req (pyOrStr req.provider cfg.llm_default_provider)) with
    | error e =>
        rw [generate_answer_factory_error env cfg req cache e hready hmem2 hmc hmiss2 hf]
        intro hcon
        injection hcon with h5 _
        exact absurd h5 (by decide)
    | ok llm =>
        rw [generate_answer_factory_ok env cfg req cache llm hready hmem2 hmc hmiss2 hf]
        cases hg : env.generate llm (ragPrompt env cfg req) with
        | none =>
            rw [runRag_result_none env cfg req _ _ llm _ _ hg]
            intro hcon
            injection hcon with h5 _
            exact absurd h5 (by decide)
        | some t =>
            rw [runRag_result_some env cfg req _ _ llm _ _ t hg]
            intro hcon
            exact GenOutcome.noConfusion hcon
  · cases hf : env.factory (pyOrStr req.provider cfg.llm_default_provider)
        (resolveModel cfg req (pyOrStr req.provider cfg.llm_default_provider)) with
    | error e =>
        rw [generate_answer_factory_error env cfg req cache e hready hmem2 hmc hmiss2 hf,
          hprov, hres]
    | ok llm =>
        rw [generate_answer_factory_ok env cfg req cache llm hready hmem2 hmc hmiss2 hf,
          runRag_factoryCalls, hprov, hres]
  · intro llm hfl
    have hf2 : env.factory (pyOrStr req.provider cfg.llm_default_provider)
        (resolveModel cfg req (pyOrStr req.provider cfg.llm_default_provider)) = .ok llm := by
      rw [hprov, hres]
      exact hfl
    rw [generate_answer_factory_ok env cfg req cache llm hready hmem2 hmc hmiss2 hf2,
      runRag_cache]
    simp [lookupKey_append, hmiss, hkey]

theorem generate_none_model_cache_key_witness :
    resolveModel cfgEmptyModels reqW "ollama" = none ∧
    (generate_answer envW cfgEmptyModels reqW []).factoryCalls =
      [("ollama", (none : Option String))] ∧
    lookupKey (generate_answer envW cfgEmptyModels reqW []).cache "ollama:None" = some 7 :=
  ⟨(generate_none_model_cache_key envW cfgEmptyModels reqW [] rfl rfl (by decide)
      rfl rfl rfl).1,
   (generate_none_model_cache_key envW cfgEmptyModels reqW [] rfl rfl (by decide)
      rfl rfl rfl).2.2.1,
   (generate_none_model_cache_key envW cfgEmptyModels reqW [] rfl rfl (by decide)
      rfl rfl rfl).2.2.2 7 rfl⟩

/-- C7: for every valid /search request, against the spec model of the
external index over a store ranked by descending score, the handler returns a
success response whose results list has length at most the request limit, is
pairwise sorted by descending score, and whose total_results equals the length
of that list. -/
theorem search_results_sorted_bounded {Inst : Type} (env : Env Inst) (cfg : Config)
    (req : SearchRequest) (store : List ScoredPoint)
    (hready : env.ready = true)
    (hclient : env.client = specClient store)
    (hsorted : List.Pairwise (fun a b => b.score ≤ a.score) store)
    (_hq : req.query ≠ "") (_hlo : 1 ≤ req.limit) (_hhi : req.limit ≤ 20) :
    ∃ resp, search_fables env cfg req = .ok resp ∧
      resp.results.length ≤ req.limit ∧
      List.Pairwise (fun a b => b.score ≤ a.score) resp.results ∧
      resp.total_results = resp.results.length := by
  have hsearch : QdrantManager.search (specClient store) cfg.collection_name
      (env.encode req.query) req.limit req.score_threshold =
      ((match req.score_threshold with
        | none => store
        | some t => store.filter (fun p => t ≤ p.score)).take req.limit).map
        (fun (r : ScoredPoint) =>
          ({ id := r.id, score := r.score, payload := r.payload } : SearchHit)) := rfl
  have hsub : List.Sublist ((match req.score_threshold with
      | none => store
      | some t => store.filter (fun p => t ≤ p.score)).take req.limit) store := by
    cases req.score_threshold with
    | none => exact List.take_sublist _ _
    | some t => exact (List.take_sublist _ _).trans (List.filter_sublist _)
  simp only [search_fables]
  rw [hready, if_pos rfl, hclient, hsearch]
  refine ⟨_, rfl, ?_, ?_, rfl⟩
  · simp only [List.length_map, List.length_take]
    exact min_le_left _ _
  · rw [List.pairwise_map, List.pairwise_map]
    exact List.Pairwise.sublist hsub hsorted

theorem search_results_sorted_bounded_witness :
    envW.client = specClient storeW ∧
    List.Pairwise (fun a b => b.score ≤ a.score) storeW ∧
    (∃ resp, search_fables envW cfgW sreqW = .ok resp ∧
      resp.results.length ≤ sreqW.limit ∧
      List.Pairwise (fun a b => b.score ≤ a.score) resp.results ∧
      resp.total_results = resp.results.length) :=
  ⟨rfl, by norm_num [storeW, List.pairwise_cons],
   search_results_sorted_bounded envW cfgW sreqW storeW rfl rfl
     (by norm_num [storeW, List.pairwise_cons]) (by decide) (by decide) (by decide)⟩

/-- Per-request inventory of cache writes and factory calls: a /generate run
either makes no factory call and leaves the cache unchanged, or makes exactly
one factory call for a key absent from the cache, appending the constructed
instance under that key on success and leaving the cache unchanged on
failure. -/
theorem generate_answer_cache_calls {Inst : Type} (env : Env Inst) (cfg : Config)
    (req : GenerateRequest) (cache : List (String × Inst)) :
    ((generate_answer env cfg req cache).cache = cache ∧
     (generate_answer env cfg req cache).factoryCalls = []) ∨
    (∃ p m, (generate_answer env cfg req cache).factoryCalls = [(p, m)] ∧
      lookupKey cache (cacheKeyOf p m) = none ∧
      (((env.factory p m).isOk = false ∧
        (generate_answer env cfg req cache).cache = cache) ∨
       (∃ i, env.factory p m = .ok i ∧
         (generate_answer env cfg req cache).cache = cache ++ [(cacheKeyOf p m, i)]))) := by
  by_cases hready : env.ready = true
  case neg =>
    left
    rw [generate_answer_not_ready env cfg req cache (by revert hready; cases env.ready <;> simp)]
    exact ⟨rfl, rfl⟩
  by_cases hprov : pyOrStr req.provider cfg.llm_default_provider ∈ cfg.llm_providers
  case neg =>
    left
    rw [generate_answer_bad_provider env cfg req cache hready hprov]
    exact ⟨rfl, rfl⟩
  by_cases hmc : (pyOrStr req.provider cfg.llm_default_provider = "ollama" ∧
      modelCheckFails cfg.ollama_models
        (resolveModel cfg req (pyOrStr req.provider cfg.llm_default_provider)) = true)
  case pos =>
    left
    rw [generate_answer_bad_model env cfg req cache hready hprov hmc]
    exact ⟨rfl, rfl⟩
  cases hl : lookupKey cache (cacheKeyOf (pyOrStr req.provider cfg.llm_default_provider)
      (resolveModel cfg req (pyOrStr req.provider cfg.llm_default_provider))) with
  | some llm =>
      left
      rw [generate_answer_cache_hit env cfg req cache llm hready hprov hmc hl]
      exact ⟨runRag_cache env cfg req _ _ llm cache [],
        runRag_factoryCalls env cfg req _ _ llm cache []⟩
  | none =>
      right
      refine ⟨pyOrStr req.provider cfg.llm_default_provider,
        resolveModel cfg req (pyOrStr req.provider cfg.llm_default_provider), ?_, hl, ?_⟩
      · cases hf : env.factory (pyOrStr req.provider cfg.llm_default_provider)
            (resolveModel cfg req (pyOrStr req.provider cfg.llm_default_provider)) with
        | error e =>
            rw [generate_answer_factory_error env cfg req cache e hready hprov hmc hl hf]
        | ok llm =>
            rw [generate_answer_factory_ok env cfg req cache llm hready hprov hmc hl hf,
              runRag_factoryCalls]
      · cases hf : env.factory (pyOrStr req.provider cfg.llm_default_provider)
            (resolveModel cfg req (pyOrStr req.provider cfg.llm_default_provider)) with
        | error e =>
            exact Or.inl ⟨rfl,
              by rw [generate_answer_factory_error env cfg req cache e hready hprov hmc hl hf]⟩
        | ok llm =>
            exact Or.inr ⟨llm, rfl,
              by rw [generate_answer_factory_ok env cfg req cache llm hready hprov hmc hl hf,
                runRag_cache]⟩

theorem countKey_nil (k : String) : countKey k [] = 0 := rfl

theorem countKey_append (k : String) (l1 l2 : List (String × Option String)) :
    countKey k (l1 ++ l2) = countKey k l1 + countKey k l2 := by
  simp [countKey, List.filter_append]

theorem countKey_singleton (k p : String) (m : Option String) :
    countKey k [(p, m)] = if cacheKeyOf p m = k then 1 else 0 := by
  by_cases h : cacheKeyOf p m = k <;> simp [countKey, h]

theorem lookupKey_append_self {Inst : Type} (cache : List (String × Inst)) (k : String)
    (i : Inst) (h : lookupKey cache k = none) :
    lookupKey (cache ++ [(k, i)]) k = some i := by
  rw [lookupKey_append, h, if_pos rfl]

theorem lookupKey_append_other {Inst : Type} (cache : List (String × Inst))
    (a k : String) (i : Inst) (h : a ≠ k) :
    lookupKey (cache ++ [(a, i)]) k = lookupKey cache k := by
  rw [lookupKey_append]
  cases lookupKey cache k with
  | none => simp [h]
  | some v => rfl

/-- Sequence invariant: when every factory call succeeds, a key already
present in the cache is never constructed again, and any key is constructed
at most once across a whole request sequence. -/
theorem runSeq_countKey {Inst : Type} (env : Env Inst) (cfg : Config)
    (hfac : ∀ p m, (env.factory p m).isOk = true) :
    ∀ (reqs : List GenerateRequest) (cache : List (String × Inst)) (k : String),
      (lookupKey cache k ≠ none → countKey k (runSeq env cfg reqs cache).2 = 0) ∧
      countKey k (runSeq env cfg reqs cache).2 ≤ 1 := by
  intro reqs
  induction reqs with
  | nil =>
      intro cache k
      constructor
      · intro _
        rfl
      · exact Nat.zero_le 1
  | cons r rs ih =>
      intro cache k
      have hstep := generate_answer_cache_calls env cfg r cache
      simp only [runSeq, countKey_append]
      rcases hstep with ⟨hc, hfc⟩ | ⟨p, m, hfc, hl, hrest⟩
      · rw [hfc, hc]
        constructor
        · intro hk
          simp [countKey_nil, (ih cache k).1 hk]
        · simpa [countKey_nil] using (ih cache k).2
      · rcases hrest with ⟨hbad, _⟩ | ⟨i, hok, hc⟩
        · rw [hfac p m] at hbad
          cases hbad
        · rw [hfc, hc, countKey_singleton]
          by_cases hkey : cacheKeyOf p m = k
          · subst hkey
            have hpresent : lookupKey (cache ++ [(cacheKeyOf p m, i)]) (cacheKeyOf p m) ≠ none := by
              rw [lookupKey_append_self cache _ i hl]
              intro hcon
              cases hcon
            constructor
            · intro hk
              exact absurd hl hk
            · rw [if_pos rfl, (ih _ _).1 hpresent]
          · rw [if_neg hkey]
            have hsame : lookupKey (cache ++ [(cacheKeyOf p m, i)]) k = lookupKey cache k :=
              lookupKey_append_other cache _ k i hkey
            constructor
            · intro hk
              simp [(ih _ k).1 (by rw [hsame]; exact hk)]
            · simpa using (ih (cache ++ [(cacheKeyOf p m, i)]) k).2

/-- C4: the provider cache maps cache keys to constructed instances.  When
constructions succeed, the factory is called at most once for a fixed cache
key across any sequence of /generate requests, and never for a key already
cached (later requests reuse the cached instance); a successful construction
is stored under its cache key; a failed construction surfaces as a 500 error,
leaves the cache unchanged, and an identical later request calls the factory
again. -/
theorem provider_cache_behaviour :
    (∀ (Inst : Type) (env : Env Inst) (cfg : Config),
      (∀ p m, (env.factory p m).isOk = true) →
      ∀ (reqs : List GenerateRequest) (cache : List (String × Inst)) (k : String),
        countKey k (runSeq env cfg reqs cache).2 ≤ 1 ∧
        (lookupKey cache k ≠ none → countKey k (runSeq env cfg reqs cache).2 = 0)) ∧
    (∀ (Inst : Type) (env : Env Inst) (cfg : Config) (req : GenerateRequest)
       (cache : List (String × Inst)) (llm : Inst),
      env.ready = true →
      pyOrStr req.provider cfg.llm_default_provider ∈ cfg.llm_providers →
      ¬(pyOrStr req.provider cfg.llm_default_provider = "ollama" ∧
        modelCheckFails cfg.ollama_models
          (resolveModel cfg req (pyOrStr req.provider cfg.llm_default_provider)) = true) →
      lookupKey cache (cacheKeyOf (pyOrStr req.provider cfg.llm_default_provider)
        (resolveModel cfg req (pyOrStr req.provider cfg.llm_default_provider))) = none →
      env.factory (pyOrStr req.provider cfg.llm_default_provider)
        (resolveModel cfg req (pyOrStr req.provider cfg.llm_default_provider)) = .ok llm →
      lookupKey (generate_answer env cfg req cache).cache
        (cacheKeyOf (pyOrStr req.provider cfg.llm_default_provider)
          (resolveModel cfg req (pyOrStr req.provider cfg.llm_default_provider))) = some llm) ∧
    (∀ (Inst : Type) (env : Env Inst) (cfg : Config) (req : GenerateRequest)
       (cache : List (String × Inst)) (e : String),
      env.ready = true →
      pyOrStr req.provider cfg.llm_default_provider ∈ cfg.llm_providers →
      ¬(pyOrStr req.provider cfg.llm_default_provider = "ollama" ∧
        modelCheckFails cfg.ollama_models
          (resolveModel cfg req (pyOrStr req.provider cfg.llm_default_provider)) = true) →
      lookupKey cache (cacheKeyOf (pyOrStr req.provider cfg.llm_default_provider)
        (resolveModel cfg req (pyOrStr req.provider cfg.llm_default_provider))) = none →
      env.factory (pyOrStr req.provider cfg.llm_default_provider)
        (resolveModel cfg req (pyOrStr req.provider cfg.llm_default_provider)) = .error e →
      (∃ d, (generate_answer env cfg req cache).result = .httpError 500 d) ∧
      (generate_answer env cfg req cache).cache = cache ∧
      (generate_answer env cfg req cache).factoryCalls =
        [(pyOrStr req.provider cfg.llm_default_provider,
          resolveModel cfg req (pyOrStr req.provider cfg.llm_default_provider))] ∧
      (generate_answer env cfg req (generate_answer env cfg req cache).cache).factoryCalls =
        [(pyOrStr req.provider cfg.llm_default_provider,
          resolveModel cfg req (pyOrStr req.provider cfg.llm_default_provider))]) := by
  refine ⟨?_, ?_, ?_⟩
  · intro Inst env cfg hfac reqs cache k
    exact ⟨(runSeq_countKey env cfg hfac reqs cache k).2,
      (runSeq_countKey env cfg hfac reqs cache k).1⟩
  · intro Inst env cfg req cache llm hready hprov hmc hl hf
    rw [generate_answer_factory_ok env cfg req cache llm hready hprov hmc hl hf, runRag_cache]
    exact lookupKey_append_self cache _ llm hl
  · intro Inst env cfg req cache e hready hprov hmc hl hf
    have heq := generate_answer_factory_error env cfg req cache e hready hprov hmc hl hf
    have hcache : (generate_answer env cfg req cache).cache = cache := by rw [heq]
    refine ⟨⟨_, by rw [heq]⟩, hcache, by rw [heq], ?_⟩
    rw [hcache, heq]

theorem provider_cache_behaviour_witness :
    countKey "ollama:llama3.2:latest" (runSeq envW cfgW [reqW, reqW] []).2 ≤ 1 ∧
    countKey "ollama:llama3.2:latest" (runSeq envW cfgW [reqW, reqW] []).2 = 1 ∧
    lookupKey (generate_answer envW cfgW reqW []).cache "ollama:llama3.2:latest" = some 7 ∧
    (generate_answer envFailFactory cfgW reqW []).cache = [] ∧
    (generate_answer envFailFactory cfgW reqW []).factoryCalls =
      [("ollama", some "llama3.2:latest")] :=
  ⟨(provider_cache_behaviour.1 Nat envW cfgW (fun _ _ => rfl) [reqW, reqW] []
      "ollama:llama3.2:latest").1,
   rfl,
   provider_cache_behaviour.2.1 Nat envW cfgW reqW [] 7 rfl (by decide) (by decide) rfl rfl,
   (provider_cache_behaviour.2.2 Nat envFailFactory cfgW reqW [] "boom" rfl (by decide)
     (by decide) rfl rfl).2.1,
   (provider_cache_behaviour.2.2 Nat envFailFactory cfgW reqW [] "boom" rfl (by decide)
     (by decide) rfl rfl).2.2.1⟩
